import Mathlib

/-!
Shallow embedding of the color-encoding metadata model of
`lib/jxl/color_encoding_internal.cc` (libjxl-mod).

Conventions of the embedding:
* C++ `double`/`float` arithmetic is idealized as exact rational arithmetic
  (`ℚ`); decimal literals of the source become the exact decimal rationals.
* `int32_t`/`uint32_t` values are embedded as `ℤ`/`ℕ`; all values handled
  here are far below the overflow bounds, so no wraparound modelling is
  needed (|stored coordinate| ≤ 4·10⁶ < 2³¹, gamma ≤ 10⁷ < 2²⁴).
* Stateful C++ methods that mutate the object and return a `Status` are
  embedded as functions `input → state → Option JxlErr × state`: the first
  component is `none` on success and the error on failure, the second is the
  state of the object after the call (including partial mutation, which the
  source performs before some of its validity checks).
* `JXL_DASSERT`/`JXL_ASSERT` are debug assertions (no-ops in release
  builds); they are not failure paths and are not modelled as such.
-/

namespace JxlModel

/-- Error taxonomy, one constructor per distinct failure site of the source
(`JXL_FAILURE` call sites), so that different failure modes stay
distinguishable in theorems. -/
inductive JxlErr where
  | validationError
  | encodingCapacityError
  | formatInconsistencyError
  | parseError
  | emptyIccError
  | invalidGammaError
  | cmsCreateError
  deriving DecidableEq, Repr

/-- `enum ColorSpace` of the source. -/
inductive ColorSpace where
  | kRGB | kGray | kXYB | kUnknown
  deriving DecidableEq, Repr

/-- `enum WhitePoint` of the source. -/
inductive WhitePoint where
  | kD65 | kCustom | kE | kDCI
  deriving DecidableEq, Repr

/-- `enum Primaries` of the source. -/
inductive Primaries where
  | kSRGB | kCustom | k2100 | kP3
  deriving DecidableEq, Repr

/-- `enum TransferFunction` of the source. -/
inductive TransferFunction where
  | kSRGB | kLinear | k709 | kPQ | kHLG | kDCI | kUnknown
  deriving DecidableEq, Repr

/-- `enum RenderingIntent` of the source. -/
inductive RenderingIntent where
  | kPerceptual | kRelative | kSaturation | kAbsolute
  deriving DecidableEq, Repr

/-- `struct CIExy { double x, y; }` with exact rational coordinates. -/
structure CIExy where
  x : ℚ
  y : ℚ
  deriving DecidableEq, Repr

/-- `struct PrimariesCIExy { CIExy r, g, b; }`. -/
structure PrimariesCIExy where
  r : CIExy
  g : CIExy
  b : CIExy
  deriving DecidableEq, Repr

/-- C `roundf`: round to nearest, ties away from zero. -/
def roundAway (q : ℚ) : ℤ :=
  if 0 ≤ q then ⌊q + 1 / 2⌋ else -⌊-q + 1 / 2⌋

/-- Modelled from the spec: the zig-zag packing `PackSigned` of
`lib/jxl/pack_signed.h` (header not under src/): "the signed value is
zig-zag packed to unsigned" — a non-negative `s` maps to `2s`, a negative
`s` to `2|s| - 1`. -/
def packSigned (s : ℤ) : ℕ :=
  (if 0 ≤ s then 2 * s else -2 * s - 1).toNat

/-- Modelled from the spec: the inverse zig-zag `UnpackSigned` of
`lib/jxl/pack_signed.h` (header not under src/). -/
def unpackSigned (u : ℕ) : ℤ :=
  if u % 2 = 0 then (u / 2 : ℕ) else -((u / 2 : ℕ) : ℤ) - 1

/-- The four `U32` distributions used by `Customxy::VisitFields`
(`Bits(19), BitsOffset(19, 524288), BitsOffset(20, 1048576),
BitsOffset(21, 2097152)`), as (bit-width, offset) pairs; `Bits(n)` is
`BitsOffset(n, 0)`. These constants are taken verbatim from the source. -/
def customxyDist : List (ℕ × ℕ) :=
  [(19, 0), (19, 524288), (20, 1048576), (21, 2097152)]

/-- Modelled from the spec: the external bundle framework's tiered-unsigned
primitive ("tiered unsigned int"); a distribution `BitsOffset(n, o)` can
represent exactly the values in `[o, o + 2^n)`. -/
def distCanEncode (d : ℕ × ℕ) (u : ℕ) : Bool :=
  decide (d.2 ≤ u) && decide (u < d.2 + 2 ^ d.1)

/-- Modelled from the spec: the external `U32` coder chooses, among the
distributions that can represent the value, one of minimal bit cost (the
selector cost is the same 2 bits for all four); `none` when no distribution
can represent the value (`Bundle::CanEncode` fails). -/
def u32WidthFor (ds : List (ℕ × ℕ)) (u : ℕ) : Option ℕ :=
  ((ds.filter (fun d => distCanEncode d u)).map Prod.fst).min?

/-- Whether the `U32` field of `Customxy::VisitFields` can encode `u`. -/
def u32CanEncode (u : ℕ) : Bool :=
  (u32WidthFor customxyDist u).isSome

/-- The wire bit-width `Customxy::VisitFields` uses for a stored signed
coordinate `s`: the value submitted to the tiered coder is `PackSigned s`. -/
def customxyCoordWidth (s : ℤ) : Option ℕ :=
  u32WidthFor customxyDist (packSigned s)

/-- The tier scheme in the words of the claim (spec side, for comparison
with the source constants): "values below 2^19 are written in 19 bits, the
next tier in 20 bits, the next in 21 bits, and the final tier is a
full-width fallback" — full width being the 32 bits of the stored value. -/
def specCustomxyTierWidth (u : ℕ) : Option ℕ :=
  some (if u < 524288 then 19
        else if u < 1048576 then 20
        else if u < 2097152 then 21
        else 32)

/-- Storage of `Customxy` (`::jxl::cms::Customxy`): a pair of `int32_t`
fixed-point coordinates at scale 10⁶. -/
structure Customxy where
  x : ℤ
  y : ℤ
  deriving DecidableEq, Repr

/-- `F64FromCustomxyI32`: decode = raw * 1e-6. -/
def F64FromCustomxyI32 (i : ℤ) : ℚ := (i : ℚ) * 1e-6

/-- `F64ToCustomxyI32`: fails unless `-4 ≤ f ≤ 4`, else rounds `f * 1e6`
(`roundf`, ties away from zero) to the stored integer. -/
def F64ToCustomxyI32 (f : ℚ) : Option ℤ :=
  if -4 ≤ f ∧ f ≤ 4 then some (roundAway (f * 1e6)) else none

/-- `Bundle::CanEncode` specialised to a `Customxy` bundle: both packed
coordinates must be representable by one of the four distributions. -/
def customxyCanEncode (st : Customxy) : Bool :=
  u32CanEncode (packSigned st.x) && u32CanEncode (packSigned st.y)

/-- `Customxy::Get`. -/
def customxyGet (st : Customxy) : CIExy :=
  ⟨F64FromCustomxyI32 st.x, F64FromCustomxyI32 st.y⟩

/-- `Customxy::Set`: writes `storage_.x` as soon as `x` validates, then
`storage_.y`, and only then runs the `Bundle::CanEncode` capacity check;
failures after a write leave the written values in place, as in the
source. -/
def customxySet (xy : CIExy) (st : Customxy) : Option JxlErr × Customxy :=
  match F64ToCustomxyI32 xy.x with
  | none => (some .validationError, st)
  | some ix =>
    match F64ToCustomxyI32 xy.y with
    | none => (some .validationError, ⟨ix, st.y⟩)
    | some iy =>
      let st2 : Customxy := ⟨ix, iy⟩
      if customxyCanEncode st2 then (none, st2)
      else (some .encodingCapacityError, st2)

/-- Modelled from the spec: `ApproxEq` of `color_encoding_internal.h` (header
not under src/) — "a small relative/absolute tolerance", pinned by the spec's
"snaps to Linear at g = 1.0 ± 1e-7": absolute tolerance 1e-7. -/
def approxEq (a b : ℚ) : Bool := decide (|a - b| ≤ 1e-7)

/-- `kGammaMul` of `::jxl::cms::CustomTransferFunction`: the gamma field is a
24-bit integer decoded as `raw / 1e7` (spec: "decoded = raw/1e7"). -/
def kGammaMul : ℕ := 10000000

/-- Modelled from the spec: `kMaxGamma` of `::jxl::cms::CustomTransferFunction`
(header not under src/); the spec constrains valid gammas to
`[1/kMaxGamma, 1]` but does not give the constant's value, which none of the
claims depend on. -/
def kMaxGamma : ℕ := 8192

/-- Storage of `CustomTransferFunction`: `have_gamma`, the raw 24-bit `gamma`,
the named `transfer_function`, plus the nonserialized color space used by
`SetImplicit`. -/
structure CustomTransferFunction where
  have_gamma : Bool
  gamma : ℕ
  transfer_function : TransferFunction
  nonserialized_color_space : ColorSpace
  deriving DecidableEq, Repr

/-- Modelled from the spec: `CustomTransferFunction::SetTransferFunction`
(header not under src/) stores a named curve, clearing `have_gamma`. -/
def setTransferFunction (t : TransferFunction) (tf : CustomTransferFunction) :
    CustomTransferFunction :=
  { tf with transfer_function := t, have_gamma := false }

/-- Modelled from the spec: `CustomTransferFunction::IsUnknown` — the
transfer function is the Unknown named curve without an explicit gamma. -/
def tfIsUnknown (tf : CustomTransferFunction) : Bool :=
  !tf.have_gamma && decide (tf.transfer_function = .kUnknown)

/-- `CustomTransferFunction::SetGamma`: range-check first, then clear
`have_gamma`, snap to `kLinear` near 1.0 or `kDCI` near 1/2.6, otherwise
store `round(gamma * kGammaMul)` with `have_gamma` set and the named tag
`kUnknown`. -/
def setGamma (g : ℚ) (tf : CustomTransferFunction) :
    Option JxlErr × CustomTransferFunction :=
  if g < 1 / (kMaxGamma : ℚ) ∨ 1 < g then (some .validationError, tf)
  else
    let tf1 := { tf with have_gamma := false }
    if approxEq g 1 then (none, { tf1 with transfer_function := .kLinear })
    else if approxEq g (1 / 2.6) then
      (none, { tf1 with transfer_function := .kDCI })
    else
      (none, { tf1 with have_gamma := true,
                        gamma := (roundAway (g * (kGammaMul : ℚ))).toNat,
                        transfer_function := .kUnknown })

/-- `CustomTransferFunction::SetImplicit`: for XYB forces gamma 1/3 and
returns true; otherwise returns false without mutation. -/
def tfSetImplicit (tf : CustomTransferFunction) : Bool × CustomTransferFunction :=
  if tf.nonserialized_color_space = .kXYB then (true, (setGamma (1 / 3) tf).2)
  else (false, tf)

/-- `CustomTransferFunction::VisitFields`: when not implicit, visits
`have_gamma`; a gamma outside `[kGammaMul/kMaxGamma, kGammaMul]` fails;
otherwise the named enum is visited. Field visits of the external visitor
are modelled as no-ops on the already-settled state; the bundle's own
validity checks are kept. -/
def tfVisitFields (tf : CustomTransferFunction) :
    Option JxlErr × CustomTransferFunction :=
  match tfSetImplicit tf with
  | (true, tf1) => (none, tf1)
  | (false, tf1) =>
    if tf1.have_gamma then
      if kGammaMul < tf1.gamma ∨ tf1.gamma * kMaxGamma < kGammaMul then
        (some .invalidGammaError, tf1)
      else (none, tf1)
    else (none, tf1)

/-- The `ColorEncoding` aggregate: serialized storage (enums, custom
chromaticities, transfer function, rendering intent, `want_icc`, the ICC
byte cache and the CMYK marker) plus the `all_default` cache. -/
structure ColorEncoding where
  color_space : ColorSpace
  white_point : WhitePoint
  primaries : Primaries
  rendering_intent : RenderingIntent
  white : Customxy
  red : Customxy
  green : Customxy
  blue : Customxy
  tf : CustomTransferFunction
  want_icc : Bool
  icc : List ℕ
  cmyk : Bool
  all_default : Bool
  deriving DecidableEq, Repr

/-- `Bundle::Init` defaults: the default-constructed `ColorEncoding`
(RGB, D65, SRGB primaries, SRGB transfer, Relative intent, no ICC). -/
def defaultColorEncoding : ColorEncoding :=
  { color_space := .kRGB
    white_point := .kD65
    primaries := .kSRGB
    rendering_intent := .kRelative
    white := ⟨0, 0⟩
    red := ⟨0, 0⟩
    green := ⟨0, 0⟩
    blue := ⟨0, 0⟩
    tf := ⟨false, kGammaMul, .kSRGB, .kRGB⟩
    want_icc := false
    icc := []
    cmyk := false
    all_default := true }

/-- Modelled from the spec: `ColorEncoding::HasPrimaries` (header not under
src/) — primaries exist only for color spaces that admit an RGB gamut
(not Gray, not XYB). -/
def hasPrimaries (c : ColorEncoding) : Bool :=
  decide (c.color_space ≠ .kGray) && decide (c.color_space ≠ .kXYB)

/-- Modelled from the spec: `ColorEncoding::ImplicitWhitePoint` (header not
under src/) — holds exactly when the color space is XYB. -/
def implicitWhitePoint (c : ColorEncoding) : Bool :=
  decide (c.color_space = .kXYB)

/-- Modelled from the spec: `ColorEncoding::SetColorSpace` (header not under
src/) stores the color space and keeps the transfer function's
nonserialized color space in sync. -/
def setColorSpace (cs : ColorSpace) (c : ColorEncoding) : ColorEncoding :=
  { c with color_space := cs,
           tf := { c.tf with nonserialized_color_space := cs } }

/-- `ColorEncoding::SetWhitePoint`: zero coordinate fails immediately;
presets are tried in the order D65, E, DCI by `ApproxEq`; otherwise the
enum becomes `kCustom` before delegating to `Customxy::Set`, whose failure
is propagated. -/
def setWhitePoint (xy : CIExy) (c : ColorEncoding) :
    Option JxlErr × ColorEncoding :=
  if xy.x = 0 ∨ xy.y = 0 then (some .validationError, c)
  else if approxEq xy.x 0.3127 && approxEq xy.y 0.3290 then
    (none, { c with white_point := .kD65 })
  else if approxEq xy.x (1 / 3) && approxEq xy.y (1 / 3) then
    (none, { c with white_point := .kE })
  else if approxEq xy.x 0.314 && approxEq xy.y 0.351 then
    (none, { c with white_point := .kDCI })
  else
    ((customxySet xy c.white).1,
     { c with white_point := WhitePoint.kCustom,
              white := (customxySet xy c.white).2 })

/-- The zero test of `ColorEncoding::SetPrimaries`. -/
def primariesAnyZero (xy : PrimariesCIExy) : Bool :=
  decide (xy.r.x = 0) || decide (xy.r.y = 0) || decide (xy.g.x = 0) ||
  decide (xy.g.y = 0) || decide (xy.b.x = 0) || decide (xy.b.y = 0)

/-- `ColorEncoding::SetPrimaries`: zero coordinate fails immediately;
presets are tried in the order SRGB, 2100, P3 by per-axis `ApproxEq`;
otherwise the enum becomes `kCustom` and the three `Customxy::Set` calls
run in sequence, the first failure aborting (earlier writes stay). -/
def setPrimaries (xy : PrimariesCIExy) (c : ColorEncoding) :
    Option JxlErr × ColorEncoding :=
  if primariesAnyZero xy then (some .validationError, c)
  else if approxEq xy.r.x 0.64 && approxEq xy.r.y 0.33 &&
      approxEq xy.g.x 0.30 && approxEq xy.g.y 0.60 &&
      approxEq xy.b.x 0.15 && approxEq xy.b.y 0.06 then
    (none, { c with primaries := .kSRGB })
  else if approxEq xy.r.x 0.708 && approxEq xy.r.y 0.292 &&
      approxEq xy.g.x 0.170 && approxEq xy.g.y 0.797 &&
      approxEq xy.b.x 0.131 && approxEq xy.b.y 0.046 then
    (none, { c with primaries := .k2100 })
  else if approxEq xy.r.x 0.680 && approxEq xy.r.y 0.320 &&
      approxEq xy.g.x 0.265 && approxEq xy.g.y 0.690 &&
      approxEq xy.b.x 0.150 && approxEq xy.b.y 0.060 then
    (none, { c with primaries := .kP3 })
  else
    match customxySet xy.r c.red with
    | (some e, r2) =>
      (some e, { c with primaries := Primaries.kCustom, red := r2 })
    | (none, r2) =>
      match customxySet xy.g c.green with
      | (some e, g2) =>
        (some e, { c with primaries := Primaries.kCustom, red := r2,
                          green := g2 })
      | (none, g2) =>
        match customxySet xy.b c.blue with
        | (some e, b2) =>
          (some e, { c with primaries := Primaries.kCustom, red := r2,
                            green := g2, blue := b2 })
        | (none, b2) =>
          (none, { c with primaries := Primaries.kCustom, red := r2,
                          green := g2, blue := b2 })

/-- `ColorEncoding::GetWhitePoint`: preset reference coordinates, or the
decoded custom pair. -/
def getWhitePoint (c : ColorEncoding) : CIExy :=
  match c.white_point with
  | .kCustom => customxyGet c.white
  | .kD65 => ⟨0.3127, 0.3290⟩
  | .kDCI => ⟨0.314, 0.351⟩
  | .kE => ⟨1 / 3, 1 / 3⟩

/-- `ColorEncoding::GetPrimaries`: preset reference coordinates, or the
decoded custom triplet. -/
def getPrimaries (c : ColorEncoding) : PrimariesCIExy :=
  match c.primaries with
  | .kCustom => ⟨customxyGet c.red, customxyGet c.green, customxyGet c.blue⟩
  | .kSRGB =>
    ⟨⟨0.639998686, 0.330010138⟩, ⟨0.300003784, 0.600003357⟩,
     ⟨0.150002046, 0.059997204⟩⟩
  | .k2100 => ⟨⟨0.708, 0.292⟩, ⟨0.170, 0.797⟩, ⟨0.131, 0.046⟩⟩
  | .kP3 => ⟨⟨0.680, 0.320⟩, ⟨0.265, 0.690⟩, ⟨0.150, 0.060⟩⟩

/-- The CMS collaborator's profile generator (`MaybeCreateProfile`, external
to this repository): an oracle from the encoding's fields to ICC bytes,
`none` when the encoding has no ICC representation. -/
def CmsCreate : Type := ColorEncoding → Option (List ℕ)

/-- `ColorEncoding::CreateICC`: clears the cache, then asks the CMS
collaborator to regenerate it; on CMS failure the cache stays cleared and
the failure is reported. -/
def createICC (cms : CmsCreate) (c : ColorEncoding) :
    Option JxlErr × ColorEncoding :=
  match cms { c with icc := ([] : List ℕ) } with
  | none => (some .cmsCreateError, { c with icc := ([] : List ℕ) })
  | some bytes => (none, { c with icc := bytes })

/-- `Bundle::AllDefault` for `ColorEncoding`: every serialized field (under
the conditionals resolved at the defaults) holds its default value. -/
def isAllDefault (c : ColorEncoding) : Bool :=
  !c.want_icc && decide (c.color_space = .kRGB) &&
  decide (c.white_point = .kD65) && decide (c.primaries = .kSRGB) &&
  !c.tf.have_gamma && decide (c.tf.transfer_function = .kSRGB) &&
  decide (c.rendering_intent = .kRelative)

/-- `Visitor::SetDefault` for `ColorEncoding`: overwrite all serialized
fields with their defaults, keeping nonserialized state. -/
def setDefaultFields (c : ColorEncoding) : ColorEncoding :=
  { defaultColorEncoding with
      tf := { defaultColorEncoding.tf with
                nonserialized_color_space := c.tf.nonserialized_color_space }
      icc := c.icc
      cmyk := c.cmyk }

/-- The trailing ICC check of `ColorEncoding::VisitFields`: a reading pass
that wants ICC leaves the buffer for later, every other pass fails on an
empty buffer. -/
def visitIccCheck (isReading : Bool) (c : ColorEncoding) :
    Option JxlErr × ColorEncoding :=
  if c.want_icc && isReading then (none, c)
  else if c.icc = [] then (some .emptyIccError, c) else (none, c)

/-- `ColorEncoding::VisitFields`: all-default fast path; `want_icc` and
`color_space` visits; if `!want_icc` the descriptive fields are visited
(white point, primaries, nested transfer function, rendering intent — the
external visitor's field visits are modelled as no-ops on the
already-settled state, the nested bundle's own checks are kept), then the
no-ICC consistency check (`color_space != kUnknown` and not
unknown-without-gamma) and the ICC regeneration; finally the trailing
empty-ICC check. -/
def visitFields (isReading : Bool) (cms : CmsCreate) (c : ColorEncoding) :
    Option JxlErr × ColorEncoding :=
  if isAllDefault c then (none, setDefaultFields c)
  else if c.want_icc then visitIccCheck isReading c
  else
    match tfVisitFields c.tf with
    | (some e, tf1) => (some e, { c with tf := tf1 })
    | (none, tf1) =>
      if c.color_space = .kUnknown ∨ tfIsUnknown tf1 then
        (some .formatInconsistencyError, { c with tf := tf1 })
      else
        match createICC cms { c with tf := tf1 } with
        | (some e, c2) => (some e, c2)
        | (none, c2) => visitIccCheck isReading c2

/-- The external (C API) transfer function: a named curve or an explicit
gamma exponent (`JXL_TRANSFER_FUNCTION_GAMMA` with its `gamma` value). -/
inductive JxlExtTransferFunction where
  | named (t : TransferFunction)
  | gammaTF (g : ℚ)
  deriving DecidableEq, Repr

/-- The external flat record `JxlColorEncoding`, with the enum fields
already decoded to the internal enums (the source's
`WhitePointFromExternal`-style converters are bijections on the valid
values, and the invalid-integer branches are unreachable in a typed
embedding). -/
structure JxlColorEncoding where
  color_space : ColorSpace
  white_point : WhitePoint
  white_point_xy : CIExy
  primaries : Primaries
  red_xy : CIExy
  green_xy : CIExy
  blue_xy : CIExy
  transfer_function : JxlExtTransferFunction
  rendering_intent : RenderingIntent
  deriving DecidableEq, Repr

/-- `ColorEncoding::FromExternal`: sets the color space, imports white
point (delegating to `SetWhitePoint` when custom), primaries (when the
color space is RGB or Unknown, delegating to `SetPrimaries` when custom),
builds a fresh transfer function via `SetGamma` or `SetTransferFunction`,
sets the rendering intent, and re-creates the ICC cache ignoring CMS
failure. Failures propagate immediately, leaving earlier mutations in
place. -/
def fromExternal (ext : JxlColorEncoding) (cms : CmsCreate)
    (c : ColorEncoding) : Option JxlErr × ColorEncoding :=
  let c1 := { setColorSpace ext.color_space c with
                white_point := ext.white_point }
  let wpStep : Option JxlErr × ColorEncoding :=
    if ext.white_point = .kCustom then setWhitePoint ext.white_point_xy c1
    else (none, c1)
  match wpStep with
  | (some e, c2) => (some e, c2)
  | (none, c2) =>
    let prStep : Option JxlErr × ColorEncoding :=
      if ext.color_space = .kRGB ∨ ext.color_space = .kUnknown then
        let c3 := { c2 with primaries := ext.primaries }
        if ext.primaries = .kCustom then
          setPrimaries ⟨ext.red_xy, ext.green_xy, ext.blue_xy⟩ c3
        else (none, c3)
      else (none, c2)
    match prStep with
    | (some e, c4) => (some e, c4)
    | (none, c4) =>
      let tf0 : CustomTransferFunction :=
        ⟨false, kGammaMul, .kSRGB, c4.color_space⟩
      let tfStep : Option JxlErr × CustomTransferFunction :=
        match ext.transfer_function with
        | .gammaTF g => setGamma g tf0
        | .named t => (none, setTransferFunction t tf0)
      match tfStep with
      | (some e, _) => (some e, c4)
      | (none, tf1) =>
        let c5 := { c4 with tf := tf1,
                            rendering_intent := ext.rendering_intent }
        (none, (createICC cms c5).2)

/-- The poisoned marker state `SetFieldsFromICC` installs before parsing:
color space and transfer function reset to Unknown, everything else kept. -/
def poison (c : ColorEncoding) : ColorEncoding :=
  { setColorSpace .kUnknown c with
      tf := setTransferFunction .kUnknown
              (setColorSpace ColorSpace.kUnknown c).tf }

/-- The CMS collaborator's ICC parser (`set_fields_from_icc`, external to
this repository): an oracle from ICC bytes to the parsed external record
and the CMYK flag, `none` on parse failure. -/
def CmsParse : Type := List ℕ → Option (JxlColorEncoding × Bool)

/-- `ColorEncoding::SetFieldsFromICC`: poison first, fail on an empty
buffer, parse via the CMS; CMYK stops early with `cmyk` set; otherwise the
ICC bytes are moved aside, the parsed fields imported through
`FromExternal`, and on success the original bytes are restored verbatim
(discarding the profile `FromExternal` re-derived). -/
def setFieldsFromICC (parse : CmsParse) (cms : CmsCreate)
    (c : ColorEncoding) : Option JxlErr × ColorEncoding :=
  if (poison c).icc = [] then (some .emptyIccError, poison c)
  else
    match parse (poison c).icc with
    | none => (some .parseError, poison c)
    | some (ext, cmyk) =>
      if cmyk then (none, { poison c with cmyk := true })
      else
        match fromExternal ext cms { poison c with icc := ([] : List ℕ) } with
        | (some e, c2) => (some e, c2)
        | (none, c2) => (none, { c2 with icc := (poison c).icc })

/-- `ToString(ColorSpace)` — frozen three-letter codes. -/
def ColorSpace.code : ColorSpace → String
  | .kRGB => "RGB"
  | .kGray => "Gra"
  | .kXYB => "XYB"
  | .kUnknown => "CS?"

/-- `ToString(WhitePoint)`. -/
def WhitePoint.code : WhitePoint → String
  | .kD65 => "D65"
  | .kCustom => "Cst"
  | .kE => "EER"
  | .kDCI => "DCI"

/-- `ToString(Primaries)`. -/
def Primaries.code : Primaries → String
  | .kSRGB => "SRG"
  | .k2100 => "202"
  | .kP3 => "DCI"
  | .kCustom => "Cst"

/-- `ToString(TransferFunction)`. -/
def TransferFunction.code : TransferFunction → String
  | .kSRGB => "SRG"
  | .kLinear => "Lin"
  | .k709 => "709"
  | .kPQ => "PeQ"
  | .kHLG => "HLG"
  | .kDCI => "DCI"
  | .kUnknown => "TF?"

/-- `ToString(RenderingIntent)`. -/
def RenderingIntent.code : RenderingIntent → String
  | .kPerceptual => "Per"
  | .kRelative => "Rel"
  | .kSaturation => "Sat"
  | .kAbsolute => "Abs"

/-- Left-pad a decimal numeral with zeros to the given width. -/
def zeroPad (w : ℕ) (n : ℕ) : String :=
  let s := Nat.repr n
  String.mk (List.replicate (w - s.length) '0') ++ s

/-- Modelled from the spec: the `ToString(double)` helper of
`color_encoding_internal.h` (header not under src/), rendering a coordinate
with seven decimal places for the persisted `Description` grammar. -/
def rationalCode (q : ℚ) : String :=
  let n := (roundAway (|q| * 10000000)).toNat
  (if q < 0 then "-" else "") ++ Nat.repr (n / 10000000) ++ "." ++
    zeroPad 7 (n % 10000000)

/-- Modelled from the spec: `CustomTransferFunction::GetGamma` (header not
under src/) — decode = raw / 1e7. -/
def tfGetGamma (tf : CustomTransferFunction) : ℚ := (tf.gamma : ℚ) * 1e-7

/-- `ColorEncoding::Description`: the frozen identifier string
`<CS>[_<WP|x;y>][_<PR|6 coords>]_<RI>[_<g gamma|TF>]`. -/
def description (c : ColorEncoding) : String :=
  let d0 := c.color_space.code
  let explicitWpTf : Bool := decide (c.color_space ≠ ColorSpace.kXYB)
  let d1 :=
    if explicitWpTf then
      if c.white_point = WhitePoint.kCustom then
        let wp := getWhitePoint c
        d0 ++ "_" ++ rationalCode wp.x ++ ";" ++ rationalCode wp.y
      else d0 ++ "_" ++ c.white_point.code
    else d0
  let d2 :=
    if hasPrimaries c then
      if c.primaries = Primaries.kCustom then
        let pr := getPrimaries c
        d1 ++ "_" ++ rationalCode pr.r.x ++ ";" ++ rationalCode pr.r.y ++
          ";" ++ rationalCode pr.g.x ++ ";" ++ rationalCode pr.g.y ++ ";" ++
          rationalCode pr.b.x ++ ";" ++ rationalCode pr.b.y
      else d1 ++ "_" ++ c.primaries.code
    else d1
  let d3 := d2 ++ "_" ++ c.rendering_intent.code
  if explicitWpTf then
    if c.tf.have_gamma then d3 ++ "_" ++ "g" ++ rationalCode (tfGetGamma c.tf)
    else d3 ++ "_" ++ c.tf.transfer_function.code
  else d3

/-- A 3-vector of exact rationals (`float[3]` of the source). -/
structure Vec3 where
  v0 : ℚ
  v1 : ℚ
  v2 : ℚ
  deriving DecidableEq, Repr

/-- A row-major 3×3 matrix (`float[9]` of the source). -/
structure Mat3 where
  r0 : Vec3
  r1 : Vec3
  r2 : Vec3
  deriving DecidableEq, Repr

/-- Dot product of two 3-vectors. -/
def dot3 (a b : Vec3) : ℚ := a.v0 * b.v0 + a.v1 * b.v1 + a.v2 * b.v2

/-- Modelled from the spec: `Mul3x3Vector` of `lib/jxl/base/matrix_ops.h`
(the external 3×3 linear-algebra collaborator): matrix–vector product. -/
def mul3x3Vector (m : Mat3) (v : Vec3) : Vec3 :=
  ⟨dot3 m.r0 v, dot3 m.r1 v, dot3 m.r2 v⟩

/-- Column `j = 0` of a matrix. -/
def col0 (m : Mat3) : Vec3 := ⟨m.r0.v0, m.r1.v0, m.r2.v0⟩

/-- Column `j = 1` of a matrix. -/
def col1 (m : Mat3) : Vec3 := ⟨m.r0.v1, m.r1.v1, m.r2.v1⟩

/-- Column `j = 2` of a matrix. -/
def col2 (m : Mat3) : Vec3 := ⟨m.r0.v2, m.r1.v2, m.r2.v2⟩

/-- Modelled from the spec: `Mul3x3Matrix` of `lib/jxl/base/matrix_ops.h`
(the external 3×3 linear-algebra collaborator): matrix product `a · b`. -/
def mul3x3Matrix (a b : Mat3) : Mat3 :=
  ⟨⟨dot3 a.r0 (col0 b), dot3 a.r0 (col1 b), dot3 a.r0 (col2 b)⟩,
   ⟨dot3 a.r1 (col0 b), dot3 a.r1 (col1 b), dot3 a.r1 (col2 b)⟩,
   ⟨dot3 a.r2 (col0 b), dot3 a.r2 (col1 b), dot3 a.r2 (col2 b)⟩⟩

/-- The fixed Bradford chromatic-adaptation matrix `kBradford`. -/
def kBradford : Mat3 :=
  ⟨⟨0.8951, 0.2664, -0.1614⟩,
   ⟨-0.7502, 1.7135, 0.0367⟩,
   ⟨0.0389, -0.0685, 1.0296⟩⟩

/-- The fixed inverse Bradford matrix `kBradfordInv`. -/
def kBradfordInv : Mat3 :=
  ⟨⟨0.9869929, -0.1470543, 0.1599627⟩,
   ⟨0.4323053, 0.5183603, 0.0492912⟩,
   ⟨-0.0085287, 0.0400428, 0.9684867⟩⟩

/-- The source's `std::isfinite` guards, which in exact rational arithmetic
are identically true (overflow to infinity cannot occur); kept so that
every check of `AdaptToXYZD50` has a counterpart in the embedding. -/
def ratFinite (_ : ℚ) : Bool := true

/-- The D50 reference white `w50` of `AdaptToXYZD50`. -/
def w50Vec : Vec3 := ⟨0.96422, 1, 0.82521⟩

/-- The source white vector `w = {wx/wy, 1, (1-wx-wy)/wy}` of
`AdaptToXYZD50`. -/
def srcWhiteVec (wx wy : ℚ) : Vec3 := ⟨wx / wy, 1, (1 - wx - wy) / wy⟩

/-- The Bradford LMS cone response `lms` of the source white point. -/
def srcLms (wx wy : ℚ) : Vec3 := mul3x3Vector kBradford (srcWhiteVec wx wy)

/-- The Bradford LMS cone response `lms50` of the D50 reference white. -/
def lms50Vec : Vec3 := mul3x3Vector kBradford w50Vec

/-- The diagonal ratio matrix `a` of `AdaptToXYZD50`. -/
def adaptRatio (wx wy : ℚ) : Mat3 :=
  ⟨⟨lms50Vec.v0 / (srcLms wx wy).v0, 0, 0⟩,
   ⟨0, lms50Vec.v1 / (srcLms wx wy).v1, 0⟩,
   ⟨0, 0, lms50Vec.v2 / (srcLms wx wy).v2⟩⟩

/-- `AdaptToXYZD50`: white-point range check, LMS cone responses of source
and D50 whites through Bradford, zero-LMS and finiteness checks, then the
conjugated diagonal ratio matrix `kBradfordInv · (a · kBradford)`. -/
def adaptToXYZD50 (wx wy : ℚ) : Option Mat3 :=
  if wx < 0 ∨ 1 < wx ∨ wy ≤ 0 ∨ 1 < wy then none
  else if !(ratFinite (srcWhiteVec wx wy).v0 &&
            ratFinite (srcWhiteVec wx wy).v2) then none
  else if (srcLms wx wy).v0 = 0 ∨ (srcLms wx wy).v1 = 0 ∨
      (srcLms wx wy).v2 = 0 then none
  else if !(ratFinite (adaptRatio wx wy).r0.v0 &&
            ratFinite (adaptRatio wx wy).r1.v1 &&
            ratFinite (adaptRatio wx wy).r2.v2) then none
  else some (mul3x3Matrix kBradfordInv
              (mul3x3Matrix (adaptRatio wx wy) kBradford))

/-! ## Helper lemmas -/

/-- The tiered `U32` field of `Customxy::VisitFields` picks 19 bits on
`[0, 2^19)`, 19 on `[2^19, 2^20)`, 20 on `[2^20, 2^21)`, 21 on
`[2^21, 2^22)`, and cannot encode `2^22` or more. -/
theorem u32WidthFor_customxy (u : ℕ) :
    u32WidthFor customxyDist u =
      if u < 524288 then some 19
      else if u < 1048576 then some 19
      else if u < 2097152 then some 20
      else if u < 4194304 then some 21
      else none := by
  simp only [u32WidthFor, customxyDist, distCanEncode, List.filter]
  norm_num
  rcases Nat.lt_or_ge u 524288 with h1 | h1
  · have d1 : decide (u < 524288) = true := by simpa using h1
    have d2 : (decide (524288 ≤ u) && decide (u < 1048576)) = false := by
      simp; omega
    have d3 : (decide (1048576 ≤ u) && decide (u < 2097152)) = false := by
      simp; omega
    have d4 : (decide (2097152 ≤ u) && decide (u < 4194304)) = false := by
      simp; omega
    rw [if_pos h1]
    simp [d1, d2, d3, d4, List.min?]
  · have d1 : decide (u < 524288) = false := by simp; omega
    rw [if_neg (by omega)]
    rcases Nat.lt_or_ge u 1048576 with h2 | h2
    · have d2 : (decide (524288 ≤ u) && decide (u < 1048576)) = true := by
        simp; omega
      have d3 : (decide (1048576 ≤ u) && decide (u < 2097152)) = false := by
        simp; omega
      have d4 : (decide (2097152 ≤ u) && decide (u < 4194304)) = false := by
        simp; omega
      rw [if_pos h2]
      simp [d1, d2, d3, d4, List.min?]
    · have d2 : (decide (524288 ≤ u) && decide (u < 1048576)) = false := by
        simp; omega
      rw [if_neg (by omega)]
      rcases Nat.lt_or_ge u 2097152 with h3 | h3
      · have d3 : (decide (1048576 ≤ u) && decide (u < 2097152)) = true := by
          simp; omega
        have d4 : (decide (2097152 ≤ u) && decide (u < 4194304)) = false := by
          simp; omega
        rw [if_pos h3]
        simp [d1, d2, d3, d4, List.min?]
      · have d3 : (decide (1048576 ≤ u) && decide (u < 2097152)) = false := by
          simp; omega
        rw [if_neg (by omega)]
        rcases Nat.lt_or_ge u 4194304 with h4 | h4
        · have d4 : (decide (2097152 ≤ u) && decide (u < 4194304)) = true := by
            simp; omega
          rw [if_pos h4]
          simp [d1, d2, d3, d4, List.min?]
        · have d4 : (decide (2097152 ≤ u) && decide (u < 4194304)) = false := by
            simp; omega
          rw [if_neg (by omega)]
          simp [d1, d2, d3, d4, List.min?]

/-- The tiered field can encode exactly the values below `2^22`. -/
theorem u32CanEncode_iff (u : ℕ) : u32CanEncode u = true ↔ u ≤ 4194303 := by
  rw [u32CanEncode, u32WidthFor_customxy]
  split_ifs <;> simp <;> omega

/-- Zig-zag bound: `packSigned s ≤ 4194303` exactly on
`[-2097152, 2097151]`. -/
theorem packSigned_le_iff (s : ℤ) :
    packSigned s ≤ 4194303 ↔ -2097152 ≤ s ∧ s ≤ 2097151 := by
  simp only [packSigned]
  split_ifs <;> omega

/-- `Bundle::CanEncode` on a `Customxy` holds exactly when both packed
coordinates fit the top tier. -/
theorem customxyCanEncode_iff (st : Customxy) :
    customxyCanEncode st = true ↔
      packSigned st.x ≤ 4194303 ∧ packSigned st.y ≤ 4194303 := by
  rw [customxyCanEncode, Bool.and_eq_true, u32CanEncode_iff, u32CanEncode_iff]

/-- `roundf` is the identity on integers. -/
theorem roundAway_intCast (k : ℤ) : roundAway (k : ℚ) = k := by
  rw [roundAway]
  split_ifs with h
  · rw [add_comm, Int.floor_add_int]
    norm_num
  · have e : (-(k : ℚ) + 1 / 2) = (1 / 2 + ((-k : ℤ) : ℚ)) := by
      push_cast
      ring
    rw [e, Int.floor_add_int]
    have : ⌊(1 / 2 : ℚ)⌋ = 0 := by norm_num
    omega

/-- `roundf` of a rational above `n - 1/2` is at least `n` (positive case). -/
theorem roundAway_ge {q : ℚ} {n : ℤ} (hq : 0 ≤ q) (h : (n : ℚ) ≤ q + 1 / 2) :
    n ≤ roundAway q := by
  rw [roundAway, if_pos hq]
  exact Int.le_floor.mpr h

/-- `roundf` of a rational below `-(n - 1/2)` is at most `-n`. -/
theorem roundAway_le_neg {q : ℚ} {n : ℤ} (hq : q < 0)
    (h : (n : ℚ) ≤ -q + 1 / 2) : roundAway q ≤ -n := by
  rw [roundAway, if_neg (by linarith)]
  have := Int.le_floor.mpr h
  omega

/-- Evaluation of `Customxy::Set` when both inputs pass the `[-4, 4]`
validation: both integers are written, then the capacity check decides. -/
theorem customxySet_inrange (x y : ℚ) (st : Customxy)
    (hx1 : -4 ≤ x) (hx2 : x ≤ 4) (hy1 : -4 ≤ y) (hy2 : y ≤ 4) :
    customxySet ⟨x, y⟩ st =
      (if customxyCanEncode ⟨roundAway (x * 1e6), roundAway (y * 1e6)⟩
        then none else some .encodingCapacityError,
       ⟨roundAway (x * 1e6), roundAway (y * 1e6)⟩) := by
  simp only [customxySet, F64ToCustomxyI32]
  rw [if_pos ⟨hx1, hx2⟩, if_pos ⟨hy1, hy2⟩]
  by_cases h : customxyCanEncode ⟨roundAway (x * 1e6), roundAway (y * 1e6)⟩
  · simp [h]
  · simp [h]

/-! ## Claims -/

/-- C2, counterexample: the claim's tier widths (19 for values below 2^19,
then 20, then 21, then a full-width fallback) disagree with the constants
of `Customxy::VisitFields`: the value 2^19 = 524288 is written in 19 bits
(second tier, `BitsOffset(19, 524288)`), not 20, and there is no full-width
fallback — 2^22 = 4194304 is not encodable at all. -/
theorem customxy_tier_scheme_counterexample :
    u32WidthFor customxyDist 524288 = some 19 ∧
    specCustomxyTierWidth 524288 = some 20 ∧
    u32WidthFor customxyDist 524288 ≠ specCustomxyTierWidth 524288 ∧
    u32WidthFor customxyDist 4194304 = none ∧
    specCustomxyTierWidth 4194304 = some 32 := by
  exact ⟨by decide, by decide, by decide, by decide, by decide⟩

/-- C2, amended: the wire encoding zig-zag packs the stored signed value
(`PackSigned`) and then uses the 4-tier scheme `Bits(19)`,
`BitsOffset(19, 2^19)`, `BitsOffset(20, 2^20)`, `BitsOffset(21, 2^21)`:
19 bits below 2^19, 19 bits with offset on [2^19, 2^20), 20 bits on
[2^20, 2^21), 21 bits on [2^21, 2^22), and no fallback — packed values of
2^22 or more cannot be encoded. -/
theorem customxy_tier_scheme (s : ℤ) :
    customxyCoordWidth s =
      if packSigned s < 524288 then some 19
      else if packSigned s < 1048576 then some 19
      else if packSigned s < 2097152 then some 20
      else if packSigned s < 4194304 then some 21
      else none :=
  u32WidthFor_customxy (packSigned s)

/-- C3, counterexample: x = 3 is a multiple of 1e-6 inside [-4, 4], yet
`Customxy::Set(3, 0)` fails (capacity): the claim's "Set succeeds" is false
on the code. -/
theorem customxy_roundtrip_counterexample :
    (3 : ℚ) = (3000000 : ℤ) * 1e-6 ∧ |(3 : ℚ)| ≤ 4 ∧
    (customxySet ⟨3, 0⟩ ⟨0, 0⟩).1 = some .encodingCapacityError := by
  refine ⟨by norm_num, by norm_num, ?_⟩
  norm_num [customxySet, F64ToCustomxyI32, roundAway, customxyCanEncode,
    u32CanEncode, u32WidthFor, customxyDist, distCanEncode, packSigned]

/-- C3, amended: for every pair of coordinates that are multiples of 1e-6
with scaled integers in the wire-encodable range [-2097152e-6, 2097151e-6]
(a strict subrange of the documented [-4, 4]), `Customxy::Set` succeeds and
a subsequent `Customxy::Get` returns exactly the input coordinates (so in
particular within 1e-6 absolute error). -/
theorem customxy_set_get_roundtrip (kx ky : ℤ) (st : Customxy)
    (hx1 : -2097152 ≤ kx) (hx2 : kx ≤ 2097151)
    (hy1 : -2097152 ≤ ky) (hy2 : ky ≤ 2097151) :
    (customxySet ⟨(kx : ℚ) * 1e-6, (ky : ℚ) * 1e-6⟩ st).1 = none ∧
    (customxySet ⟨(kx : ℚ) * 1e-6, (ky : ℚ) * 1e-6⟩ st).2 = ⟨kx, ky⟩ ∧
    customxyGet (customxySet ⟨(kx : ℚ) * 1e-6, (ky : ℚ) * 1e-6⟩ st).2 =
      ⟨(kx : ℚ) * 1e-6, (ky : ℚ) * 1e-6⟩ := by
  have cx : ((kx : ℚ) * 1e-6) * 1e6 = (kx : ℚ) := by
    rw [mul_assoc]
    norm_num
  have cy : ((ky : ℚ) * 1e-6) * 1e6 = (ky : ℚ) := by
    rw [mul_assoc]
    norm_num
  have bx1 : (-4 : ℚ) ≤ (kx : ℚ) * 1e-6 := by
    have : (-2097152 : ℚ) ≤ (kx : ℚ) := by exact_mod_cast hx1
    norm_num
    linarith
  have bx2 : (kx : ℚ) * 1e-6 ≤ 4 := by
    have : (kx : ℚ) ≤ 2097151 := by exact_mod_cast hx2
    norm_num
    linarith
  have by1 : (-4 : ℚ) ≤ (ky : ℚ) * 1e-6 := by
    have : (-2097152 : ℚ) ≤ (ky : ℚ) := by exact_mod_cast hy1
    norm_num
    linarith
  have by2 : (ky : ℚ) * 1e-6 ≤ 4 := by
    have : (ky : ℚ) ≤ 2097151 := by exact_mod_cast hy2
    norm_num
    linarith
  have hset := customxySet_inrange ((kx : ℚ) * 1e-6) ((ky : ℚ) * 1e-6) st
    bx1 bx2 by1 by2
  rw [cx, cy, roundAway_intCast, roundAway_intCast] at hset
  have henc : customxyCanEncode ⟨kx, ky⟩ = true := by
    rw [customxyCanEncode_iff]
    exact ⟨(packSigned_le_iff kx).mpr ⟨hx1, hx2⟩,
           (packSigned_le_iff ky).mpr ⟨hy1, hy2⟩⟩
  rw [hset, if_pos henc]
  exact ⟨rfl, rfl, rfl⟩

/-- C3, witness. -/
theorem customxy_set_get_roundtrip_witness :
    (customxySet ⟨(1000000 : ℤ) * 1e-6, ((-2097152 : ℤ) : ℚ) * 1e-6⟩
      ⟨5, 7⟩).1 = none ∧
    (customxySet ⟨(1000000 : ℤ) * 1e-6, ((-2097152 : ℤ) : ℚ) * 1e-6⟩
      ⟨5, 7⟩).2 = ⟨1000000, -2097152⟩ ∧
    customxyGet (customxySet ⟨(1000000 : ℤ) * 1e-6,
      ((-2097152 : ℤ) : ℚ) * 1e-6⟩ ⟨5, 7⟩).2 =
      ⟨(1000000 : ℤ) * 1e-6, ((-2097152 : ℤ) : ℚ) * 1e-6⟩ :=
  customxy_set_get_roundtrip 1000000 (-2097152) ⟨5, 7⟩
    (by decide) (by decide) (by decide) (by decide)

/-- C4: for coordinates inside the documented [-4, 4] range, `Set` succeeds
exactly when the zig-zag-packed forms of both scaled-rounded integers are
at most 2^21 + 2^21 - 1 = 4194303; both stored integers have already been
overwritten whether or not the capacity check passes; and any coordinate of
magnitude above 2097152.5e-6 (≈ 2.097152) forces the capacity failure. -/
theorem customxy_set_capacity (x y : ℚ) (st : Customxy)
    (hx : |x| ≤ 4) (hy : |y| ≤ 4) :
    ((customxySet ⟨x, y⟩ st).1 = none ↔
      packSigned (roundAway (x * 1e6)) ≤ 4194303 ∧
      packSigned (roundAway (y * 1e6)) ≤ 4194303) ∧
    (customxySet ⟨x, y⟩ st).2 =
      ⟨roundAway (x * 1e6), roundAway (y * 1e6)⟩ ∧
    (4194305 / 2000000 < |x| ∨ 4194305 / 2000000 < |y| →
      (customxySet ⟨x, y⟩ st).1 = some .encodingCapacityError) := by
  obtain ⟨hx1, hx2⟩ := abs_le.mp hx
  obtain ⟨hy1, hy2⟩ := abs_le.mp hy
  have hset := customxySet_inrange x y st hx1 hx2 hy1 hy2
  rw [hset]
  refine ⟨?_, rfl, ?_⟩
  · by_cases h : customxyCanEncode ⟨roundAway (x * 1e6), roundAway (y * 1e6)⟩
    · simp only [if_pos h]
      simpa using (customxyCanEncode_iff _).mp h
    · simp only [if_neg h]
      constructor
      · intro hc
        exact absurd hc (by simp)
      · intro hc
        exact absurd ((customxyCanEncode_iff _).mpr hc) h
  · intro hbig
    have key : ¬(packSigned (roundAway (x * 1e6)) ≤ 4194303 ∧
        packSigned (roundAway (y * 1e6)) ≤ 4194303) := by
      have big : ∀ z : ℚ, 4194305 / 2000000 < |z| →
          ¬ packSigned (roundAway (z * 1e6)) ≤ 4194303 := by
        intro z hz
        rcases lt_abs.mp hz with h1 | h1
        · have hq : (4194305 / 2 : ℚ) < z * 1e6 := by
            norm_num at h1 ⊢
            linarith
          have hge : (2097153 : ℤ) ≤ roundAway (z * 1e6) :=
            roundAway_ge (by linarith) (by push_cast; linarith)
          rw [packSigned_le_iff]
          omega
        · have hq : z * 1e6 < -(4194305 / 2 : ℚ) := by
            norm_num at h1 ⊢
            linarith
          have hle : roundAway (z * 1e6) ≤ -2097153 :=
            roundAway_le_neg (by linarith) (by push_cast; linarith)
          rw [packSigned_le_iff]
          omega
      rcases hbig with h | h
      · exact fun hc => big x h hc.1
      · exact fun hc => big y h hc.2
    have h : customxyCanEncode ⟨roundAway (x * 1e6), roundAway (y * 1e6)⟩
        = false := by
      rcases Bool.eq_false_or_eq_true
          (customxyCanEncode ⟨roundAway (x * 1e6), roundAway (y * 1e6)⟩)
          with hb | hb
      · exact absurd (by simpa using (customxyCanEncode_iff _).mp hb) key
      · exact hb
    simp [h]

/-- C1, counterexample: on a default encoding,
`SetPrimaries((0.5,0.5), (3,5), (0.5,0.5))` fails (green's y is out of
range), yet the primaries enum has been changed from SRGB to Custom, the
red coordinates have been committed, and even the failing green x was
written — the claimed validate-all-six-before-commit atomicity does not
hold in the code. -/
theorem setter_failure_atomicity_counterexample :
    (setPrimaries ⟨⟨1/2, 1/2⟩, ⟨3, 5⟩, ⟨1/2, 1/2⟩⟩
        defaultColorEncoding).1 = some JxlErr.validationError ∧
    (setPrimaries ⟨⟨1/2, 1/2⟩, ⟨3, 5⟩, ⟨1/2, 1/2⟩⟩
        defaultColorEncoding).2.primaries = Primaries.kCustom ∧
    defaultColorEncoding.primaries = Primaries.kSRGB ∧
    (setPrimaries ⟨⟨1/2, 1/2⟩, ⟨3, 5⟩, ⟨1/2, 1/2⟩⟩
        defaultColorEncoding).2.red = ⟨500000, 500000⟩ ∧
    defaultColorEncoding.red = ⟨0, 0⟩ ∧
    (setPrimaries ⟨⟨1/2, 1/2⟩, ⟨3, 5⟩, ⟨1/2, 1/2⟩⟩
        defaultColorEncoding).2.green = ⟨3000000, 0⟩ := by
  norm_num [setPrimaries, primariesAnyZero, approxEq, abs_le, customxySet,
    F64ToCustomxyI32, roundAway, customxyCanEncode, u32CanEncode,
    u32WidthFor, customxyDist, distCanEncode, packSigned,
    defaultColorEncoding]

/-- C1, amended: a `SetWhitePoint` or `SetPrimaries` failure on the
immediate zero-coordinate check leaves the object unchanged, but a failure
on the custom path is not atomic: a failing `SetWhitePoint` has already set
the white-point enum to Custom (with the custom pair updated by the partial
`Customxy::Set` write), and a failing `SetPrimaries` has already set the
primaries enum to Custom and committed every coordinate written before the
failing one. -/
theorem setter_failure_state (c : ColorEncoding) (xy : CIExy)
    (pr : PrimariesCIExy) :
    (xy.x = 0 ∨ xy.y = 0 → setWhitePoint xy c = (some .validationError, c)) ∧
    ((setWhitePoint xy c).1 ≠ none → ¬(xy.x = 0 ∨ xy.y = 0) →
      (setWhitePoint xy c).2 =
        { c with white_point := WhitePoint.kCustom,
                 white := (customxySet xy c.white).2 }) ∧
    (primariesAnyZero pr = true →
      setPrimaries pr c = (some .validationError, c)) ∧
    ((setPrimaries pr c).1 ≠ none → primariesAnyZero pr = false →
      (setPrimaries pr c).2.primaries = Primaries.kCustom) := by
  refine ⟨?_, ?_, ?_, ?_⟩
  · intro h
    rw [setWhitePoint, if_pos h]
  · intro hfail h0
    rw [setWhitePoint, if_neg h0] at hfail ⊢
    split_ifs at hfail ⊢ with h1 h2 h3
    · exact absurd rfl hfail
    · exact absurd rfl hfail
    · exact absurd rfl hfail
    · rfl
  · intro h
    rw [setPrimaries, if_pos (by simp [h])]
  · intro hfail hz
    rw [setPrimaries, if_neg (by simp [hz])] at hfail ⊢
    split_ifs at hfail ⊢ with h1 h2 h3
    · exact absurd rfl hfail
    · exact absurd rfl hfail
    · exact absurd rfl hfail
    · split
      · rfl
      · split
        · rfl
        · split
          · rfl
          · rfl

/-- C1, witness: the white-point custom-path clause at the concrete failing
input (3, 5), and the primaries zero-check clause at a concrete zero
input, with all hypotheses discharged. -/
theorem setter_failure_state_witness :
    (setWhitePoint ⟨3, 5⟩ defaultColorEncoding).2 =
      { defaultColorEncoding with
          white_point := WhitePoint.kCustom,
          white := (customxySet ⟨3, 5⟩ defaultColorEncoding.white).2 } ∧
    setPrimaries ⟨⟨0, 1⟩, ⟨1, 1⟩, ⟨1, 1⟩⟩ defaultColorEncoding =
      (some .validationError, defaultColorEncoding) :=
  ⟨(setter_failure_state defaultColorEncoding ⟨3, 5⟩
      ⟨⟨0, 1⟩, ⟨1, 1⟩, ⟨1, 1⟩⟩).2.1
      (by
        norm_num [setWhitePoint, approxEq, abs_le, customxySet,
          F64ToCustomxyI32, defaultColorEncoding]
        simp)
      (by norm_num),
   (setter_failure_state defaultColorEncoding ⟨3, 5⟩
      ⟨⟨0, 1⟩, ⟨1, 1⟩, ⟨1, 1⟩⟩).2.2.1
      (by norm_num [primariesAnyZero])⟩

/-- C4, witness (x = 3 inside [-4, 4] with magnitude above the wire
capacity threshold; every hypothesis discharged). -/
theorem customxy_set_capacity_witness :
    ((customxySet ⟨3, 0⟩ ⟨0, 0⟩).1 = none ↔
      packSigned (roundAway ((3 : ℚ) * 1e6)) ≤ 4194303 ∧
      packSigned (roundAway ((0 : ℚ) * 1e6)) ≤ 4194303) ∧
    (customxySet ⟨3, 0⟩ ⟨0, 0⟩).2 =
      ⟨roundAway ((3 : ℚ) * 1e6), roundAway ((0 : ℚ) * 1e6)⟩ ∧
    (customxySet ⟨3, 0⟩ ⟨0, 0⟩).1 = some .encodingCapacityError :=
  ⟨(customxy_set_capacity 3 0 ⟨0, 0⟩ (by norm_num) (by norm_num)).1,
   (customxy_set_capacity 3 0 ⟨0, 0⟩ (by norm_num) (by norm_num)).2.1,
   (customxy_set_capacity 3 0 ⟨0, 0⟩ (by norm_num) (by norm_num)).2.2
     (Or.inl (by norm_num))⟩

/-- C5: `SetGamma(g)` fails exactly when g lies outside
`[1/kMaxGamma, 1]` (leaving the object untouched); in range it snaps to
`kLinear` when g ≈ 1.0, else to `kDCI` when g ≈ 1/2.6 (both with
`have_gamma` cleared), and otherwise stores `round(g * kGammaMul)` in the
gamma field with `have_gamma` set and the named tag `kUnknown`. -/
theorem setGamma_spec (tf : CustomTransferFunction) (g : ℚ) :
    ((setGamma g tf).1 = none ↔ 1 / (kMaxGamma : ℚ) ≤ g ∧ g ≤ 1) ∧
    (¬(1 / (kMaxGamma : ℚ) ≤ g ∧ g ≤ 1) →
      setGamma g tf = (some .validationError, tf)) ∧
    (1 / (kMaxGamma : ℚ) ≤ g → g ≤ 1 → approxEq g 1 = true →
      setGamma g tf =
        (none, { tf with have_gamma := false,
                         transfer_function := .kLinear })) ∧
    (1 / (kMaxGamma : ℚ) ≤ g → g ≤ 1 → approxEq g 1 = false →
      approxEq g (1 / 2.6) = true →
      setGamma g tf =
        (none, { tf with have_gamma := false,
                         transfer_function := .kDCI })) ∧
    (1 / (kMaxGamma : ℚ) ≤ g → g ≤ 1 → approxEq g 1 = false →
      approxEq g (1 / 2.6) = false →
      setGamma g tf =
        (none, { tf with have_gamma := true,
                         gamma := (roundAway (g * (kGammaMul : ℚ))).toNat,
                         transfer_function := .kUnknown })) := by
  by_cases hout : g < 1 / (kMaxGamma : ℚ) ∨ 1 < g
  · have hnot : ¬(1 / (kMaxGamma : ℚ) ≤ g ∧ g ≤ 1) := by
      push_neg
      intro hge
      rcases hout with h | h
      · exact absurd hge (not_le.mpr h)
      · exact h
    rw [setGamma, if_pos hout]
    refine ⟨iff_of_false (by simp) hnot, fun _ => rfl, ?_, ?_, ?_⟩
    · intro hge hle _
      exact absurd ⟨hge, hle⟩ hnot
    · intro hge hle _ _
      exact absurd ⟨hge, hle⟩ hnot
    · intro hge hle _ _
      exact absurd ⟨hge, hle⟩ hnot
  · have hin : 1 / (kMaxGamma : ℚ) ≤ g ∧ g ≤ 1 := by
      push_neg at hout
      exact hout
    rw [setGamma, if_neg (by push_neg; exact hin)]
    by_cases h1 : approxEq g 1 = true
    · rw [if_pos h1]
      refine ⟨iff_of_true rfl hin, fun hc => absurd hin hc,
        fun _ _ _ => rfl, ?_, ?_⟩
      · intro _ _ hf _
        rw [h1] at hf
        exact absurd hf (by simp)
      · intro _ _ hf _
        rw [h1] at hf
        exact absurd hf (by simp)
    · rw [if_neg h1]
      by_cases h2 : approxEq g (1 / 2.6) = true
      · rw [if_pos h2]
        refine ⟨iff_of_true rfl hin, fun hc => absurd hin hc,
          fun _ _ hf => absurd hf (by simp [Bool.not_eq_true] at h1 ⊢; exact h1),
          fun _ _ _ _ => rfl, ?_⟩
        intro _ _ _ hf
        rw [h2] at hf
        exact absurd hf (by simp)
      · rw [if_neg h2]
        refine ⟨iff_of_true rfl hin, fun hc => absurd hin hc,
          fun _ _ hf => absurd hf (by simp [Bool.not_eq_true] at h1 ⊢; exact h1),
          ?_, fun _ _ _ _ => rfl⟩
        intro _ _ _ hf
        exact absurd hf (by simp [Bool.not_eq_true] at h2 ⊢; exact h2)

/-- C5, witness: the three success regimes and the failure regime at
concrete gammas (1.0 snaps to Linear, 1/2.6 snaps to DCI, 0.5 is stored as
5000000, 1.5 fails), hypotheses discharged. -/
theorem setGamma_spec_witness :
    setGamma 1 ⟨true, 77, .kPQ, .kRGB⟩ =
      (none, ⟨false, 77, .kLinear, .kRGB⟩) ∧
    setGamma (1 / 2.6) ⟨true, 77, .kPQ, .kRGB⟩ =
      (none, ⟨false, 77, .kDCI, .kRGB⟩) ∧
    setGamma (1 / 2) ⟨true, 77, .kPQ, .kRGB⟩ =
      (none, ⟨true, (roundAway ((1 / 2 : ℚ) * (kGammaMul : ℚ))).toNat,
              .kUnknown, .kRGB⟩) ∧
    setGamma (3 / 2) ⟨true, 77, .kPQ, .kRGB⟩ =
      (some .validationError, ⟨true, 77, .kPQ, .kRGB⟩) :=
  ⟨(setGamma_spec ⟨true, 77, .kPQ, .kRGB⟩ 1).2.2.1
      (by norm_num [kMaxGamma]) (by norm_num)
      (by norm_num [approxEq, abs_le]),
   (setGamma_spec ⟨true, 77, .kPQ, .kRGB⟩ (1 / 2.6)).2.2.2.1
      (by norm_num [kMaxGamma]) (by norm_num)
      (by norm_num [approxEq, abs_le]) (by norm_num [approxEq, abs_le]),
   (setGamma_spec ⟨true, 77, .kPQ, .kRGB⟩ (1 / 2)).2.2.2.2
      (by norm_num [kMaxGamma]) (by norm_num)
      (by norm_num [approxEq, abs_le]) (by norm_num [approxEq, abs_le]),
   (setGamma_spec ⟨true, 77, .kPQ, .kRGB⟩ (3 / 2)).2.1
      (by norm_num)⟩

/-- C6: `SetWhitePoint` fails immediately (without mutation) when x or y
is zero; otherwise the presets are tested in the fixed order D65, E, DCI
by tolerance comparison, the first match setting the enum; when none
matches the enum becomes Custom and the call delegates to `Customxy::Set`,
propagating its status. -/
theorem setWhitePoint_spec (c : ColorEncoding) (xy : CIExy) :
    (xy.x = 0 ∨ xy.y = 0 → setWhitePoint xy c = (some .validationError, c)) ∧
    (¬(xy.x = 0 ∨ xy.y = 0) →
      (approxEq xy.x 0.3127 && approxEq xy.y 0.3290) = true →
      setWhitePoint xy c = (none, { c with white_point := .kD65 })) ∧
    (¬(xy.x = 0 ∨ xy.y = 0) →
      (approxEq xy.x 0.3127 && approxEq xy.y 0.3290) = false →
      (approxEq xy.x (1 / 3) && approxEq xy.y (1 / 3)) = true →
      setWhitePoint xy c = (none, { c with white_point := .kE })) ∧
    (¬(xy.x = 0 ∨ xy.y = 0) →
      (approxEq xy.x 0.3127 && approxEq xy.y 0.3290) = false →
      (approxEq xy.x (1 / 3) && approxEq xy.y (1 / 3)) = false →
      (approxEq xy.x 0.314 && approxEq xy.y 0.351) = true →
      setWhitePoint xy c = (none, { c with white_point := .kDCI })) ∧
    (¬(xy.x = 0 ∨ xy.y = 0) →
      (approxEq xy.x 0.3127 && approxEq xy.y 0.3290) = false →
      (approxEq xy.x (1 / 3) && approxEq xy.y (1 / 3)) = false →
      (approxEq xy.x 0.314 && approxEq xy.y 0.351) = false →
      setWhitePoint xy c =
        ((customxySet xy c.white).1,
         { c with white_point := .kCustom,
                  white := (customxySet xy c.white).2 })) := by
  refine ⟨?_, ?_, ?_, ?_, ?_⟩
  · intro h0
    rw [setWhitePoint, if_pos h0]
  · intro h0 h1
    rw [setWhitePoint, if_neg h0, if_pos h1]
  · intro h0 h1 h2
    rw [setWhitePoint, if_neg h0, if_neg (by rw [h1]; simp), if_pos h2]
  · intro h0 h1 h2 h3
    rw [setWhitePoint, if_neg h0, if_neg (by rw [h1]; simp),
      if_neg (by rw [h2]; simp), if_pos h3]
  · intro h0 h1 h2 h3
    rw [setWhitePoint, if_neg h0, if_neg (by rw [h1]; simp),
      if_neg (by rw [h2]; simp), if_neg (by rw [h3]; simp)]

/-- C6, witness: zero rejection, the D65 / E / DCI snaps, and the custom
fallthrough at concrete inputs, hypotheses discharged. -/
theorem setWhitePoint_spec_witness :
    setWhitePoint ⟨0, 1 / 2⟩ defaultColorEncoding =
      (some .validationError, defaultColorEncoding) ∧
    setWhitePoint ⟨0.3127, 0.3290⟩ defaultColorEncoding =
      (none, { defaultColorEncoding with white_point := .kD65 }) ∧
    setWhitePoint ⟨1 / 3, 1 / 3⟩ defaultColorEncoding =
      (none, { defaultColorEncoding with white_point := .kE }) ∧
    setWhitePoint ⟨0.314, 0.351⟩ defaultColorEncoding =
      (none, { defaultColorEncoding with white_point := .kDCI }) ∧
    setWhitePoint ⟨0.2, 0.2⟩ defaultColorEncoding =
      ((customxySet ⟨0.2, 0.2⟩ defaultColorEncoding.white).1,
       { defaultColorEncoding with
           white_point := .kCustom,
           white := (customxySet ⟨0.2, 0.2⟩ defaultColorEncoding.white).2 }) :=
  ⟨(setWhitePoint_spec defaultColorEncoding ⟨0, 1 / 2⟩).1 (Or.inl rfl),
   (setWhitePoint_spec defaultColorEncoding ⟨0.3127, 0.3290⟩).2.1
      (by norm_num) (by norm_num [approxEq, abs_le]),
   (setWhitePoint_spec defaultColorEncoding ⟨1 / 3, 1 / 3⟩).2.2.1
      (by norm_num) (by norm_num [approxEq, abs_le])
      (by norm_num [approxEq, abs_le]),
   (setWhitePoint_spec defaultColorEncoding ⟨0.314, 0.351⟩).2.2.2.1
      (by norm_num) (by norm_num [approxEq, abs_le])
      (by norm_num [approxEq, abs_le]) (by norm_num [approxEq, abs_le]),
   (setWhitePoint_spec defaultColorEncoding ⟨0.2, 0.2⟩).2.2.2.2
      (by norm_num) (by norm_num [approxEq, abs_le])
      (by norm_num [approxEq, abs_le]) (by norm_num [approxEq, abs_le])⟩

/-- C7: in a `VisitFields` pass that is not all-default, has
`want_icc = false`, and gets past the nested transfer-function visit, the
pass fails with the format-inconsistency error exactly when the color
space is Unknown or the (visited) transfer function is the Unknown named
curve without gamma; when the check passes, the ICC cache is regenerated
in the same pass (the CMS output is installed, and a CMS failure is its
own distinct error with the cache left cleared). -/
theorem visitFields_no_icc_consistency (c : ColorEncoding) (isReading : Bool)
    (cms : CmsCreate)
    (hdef : isAllDefault c = false) (hicc : c.want_icc = false)
    (htf : (tfVisitFields c.tf).1 = none) :
    ((visitFields isReading cms c).1 = some .formatInconsistencyError ↔
      c.color_space = .kUnknown ∨
        tfIsUnknown (tfVisitFields c.tf).2 = true) ∧
    (¬(c.color_space = .kUnknown ∨
        tfIsUnknown (tfVisitFields c.tf).2 = true) →
      ∀ bytes : List ℕ,
        cms { c with tf := (tfVisitFields c.tf).2, icc := ([] : List ℕ) } =
          some bytes →
        (visitFields isReading cms c).2.icc = bytes) ∧
    (¬(c.color_space = .kUnknown ∨
        tfIsUnknown (tfVisitFields c.tf).2 = true) →
      cms { c with tf := (tfVisitFields c.tf).2, icc := ([] : List ℕ) } =
        none →
      (visitFields isReading cms c).1 = some .cmsCreateError) := by
  rcases htv : tfVisitFields c.tf with ⟨s1, tf1⟩
  rw [htv] at htf
  simp only at htf
  subst htf
  dsimp only
  by_cases hbad : c.color_space = .kUnknown ∨ tfIsUnknown tf1 = true
  · have heval : visitFields isReading cms c =
        (some .formatInconsistencyError, { c with tf := tf1 }) := by
      rw [visitFields, if_neg (by rw [hdef]; simp),
        if_neg (by rw [hicc]; simp), htv]
      exact if_pos hbad
    exact ⟨by rw [heval]; exact iff_of_true rfl hbad,
      fun hn => absurd hbad hn, fun hn => absurd hbad hn⟩
  · rcases hc : cms { c with tf := tf1, icc := ([] : List ℕ) }
        with _ | bytes
    · have heval : visitFields isReading cms c =
          (some .cmsCreateError,
           { c with tf := tf1, icc := ([] : List ℕ) }) := by
        rw [visitFields, if_neg (by rw [hdef]; simp),
          if_neg (by rw [hicc]; simp), htv]
        simp only [if_neg hbad, createICC]
        rw [show ({ ({ c with tf := tf1 } : ColorEncoding) with
              icc := ([] : List ℕ) } : ColorEncoding) =
            { c with tf := tf1, icc := ([] : List ℕ) } from rfl, hc]
      refine ⟨by rw [heval]; exact iff_of_false (by simp) hbad, ?_, ?_⟩
      · intro _ bytes hb
        exact absurd hb (by simp)
      · intro _ _
        rw [heval]
    · have heval : visitFields isReading cms c =
          visitIccCheck isReading { c with tf := tf1, icc := bytes } := by
        rw [visitFields, if_neg (by rw [hdef]; simp),
          if_neg (by rw [hicc]; simp), htv]
        simp only [if_neg hbad, createICC]
        rw [show ({ ({ c with tf := tf1 } : ColorEncoding) with
              icc := ([] : List ℕ) } : ColorEncoding) =
            { c with tf := tf1, icc := ([] : List ℕ) } from rfl, hc]
      have hcheck : visitIccCheck isReading { c with tf := tf1, icc := bytes } =
          (if bytes = [] then (some .emptyIccError,
             ({ c with tf := tf1, icc := bytes } : ColorEncoding))
           else (none, { c with tf := tf1, icc := bytes })) := by
        rw [visitIccCheck]
        rw [show (({ c with tf := tf1, icc := bytes } :
            ColorEncoding).want_icc && isReading) = (c.want_icc && isReading)
            from rfl, hicc]
        simp
      refine ⟨?_, ?_, ?_⟩
      · rw [heval, hcheck]
        refine iff_of_false ?_ hbad
        by_cases hbe : bytes = []
        · rw [if_pos hbe]
          simp
        · rw [if_neg hbe]
          simp
      · intro _ bytes2 hb
        have hbb : bytes = bytes2 := by
          injection hb with h
        subst hbb
        rw [heval, hcheck]
        by_cases hbe : bytes = []
        · rw [if_pos hbe]
        · rw [if_neg hbe]
      · intro _ hb
        exact absurd hb (by simp)

/-- C7, witness: an Unknown color space without ICC fails the consistency
check, while a well-formed non-default encoding regenerates the ICC cache
from the CMS in the same pass; hypotheses discharged at concrete inputs. -/
theorem visitFields_no_icc_consistency_witness :
    (visitFields false (fun _ => some [9])
        { defaultColorEncoding with color_space := .kUnknown }).1 =
      some .formatInconsistencyError ∧
    (visitFields true (fun _ => some [4])
        { defaultColorEncoding with rendering_intent := .kPerceptual }).2.icc =
      [4] :=
  ⟨(visitFields_no_icc_consistency
      { defaultColorEncoding with color_space := .kUnknown } false
      (fun _ => some [9]) rfl rfl rfl).1.mpr (Or.inl rfl),
   (visitFields_no_icc_consistency
      { defaultColorEncoding with rendering_intent := .kPerceptual } true
      (fun _ => some [4]) rfl rfl rfl).2.1 (by decide) [4] rfl⟩

/-- C8: `AdaptToXYZD50` rejects every white point outside
`[0,1] × (0,1]`, rejects any in-range white point whose Bradford LMS
response has a zero component, and on all remaining inputs succeeds with
the composed matrix `kBradfordInv · (ratio · kBradford)` (in exact
rational arithmetic the source's non-finiteness guards can never fire). -/
theorem adaptToXYZD50_spec (wx wy : ℚ) :
    ((wx < 0 ∨ 1 < wx ∨ wy ≤ 0 ∨ 1 < wy) → adaptToXYZD50 wx wy = none) ∧
    (¬(wx < 0 ∨ 1 < wx ∨ wy ≤ 0 ∨ 1 < wy) →
      ((srcLms wx wy).v0 = 0 ∨ (srcLms wx wy).v1 = 0 ∨
          (srcLms wx wy).v2 = 0 →
        adaptToXYZD50 wx wy = none) ∧
      (¬((srcLms wx wy).v0 = 0 ∨ (srcLms wx wy).v1 = 0 ∨
          (srcLms wx wy).v2 = 0) →
        adaptToXYZD50 wx wy =
          some (mul3x3Matrix kBradfordInv
            (mul3x3Matrix (adaptRatio wx wy) kBradford)))) := by
  refine ⟨?_, ?_⟩
  · intro h
    rw [adaptToXYZD50, if_pos h]
  · intro hr
    constructor
    · intro hz
      rw [adaptToXYZD50, if_neg hr, if_neg (by simp [ratFinite]),
        if_pos hz]
    · intro hz
      rw [adaptToXYZD50, if_neg hr, if_neg (by simp [ratFinite]),
        if_neg hz, if_neg (by simp [ratFinite])]

/-- C8, witness: `AdaptToXYZD50(0.5, 0.0)` fails (wy out of range), and
the D65 white point succeeds with the composed matrix; hypotheses
discharged. -/
theorem adaptToXYZD50_spec_witness :
    adaptToXYZD50 (1 / 2) 0 = none ∧
    adaptToXYZD50 0.3127 0.3290 =
      some (mul3x3Matrix kBradfordInv
        (mul3x3Matrix (adaptRatio 0.3127 0.3290) kBradford)) :=
  ⟨(adaptToXYZD50_spec (1 / 2) 0).1 (by norm_num),
   ((adaptToXYZD50_spec 0.3127 0.3290).2 (by norm_num)).2
      (by norm_num [srcLms, srcWhiteVec, mul3x3Vector, dot3, kBradford])⟩

/-- C9: `SetFieldsFromICC` poisons the color space and transfer function
to Unknown first, so both the empty-ICC failure and the CMS parse failure
leave the object in exactly the poisoned state (the pre-call object with
those two fields reset); and a successful non-CMYK call restores the
original ICC byte buffer verbatim, discarding the re-derived profile. -/
theorem setFieldsFromICC_spec (c : ColorEncoding) (parse : CmsParse)
    (cms : CmsCreate) :
    ((poison c).color_space = ColorSpace.kUnknown ∧
      tfIsUnknown (poison c).tf = true) ∧
    (c.icc = [] →
      setFieldsFromICC parse cms c = (some .emptyIccError, poison c)) ∧
    (c.icc ≠ [] → parse c.icc = none →
      setFieldsFromICC parse cms c = (some .parseError, poison c)) ∧
    (∀ ext : JxlColorEncoding, c.icc ≠ [] →
      parse c.icc = some (ext, false) →
      (setFieldsFromICC parse cms c).1 = none →
      (setFieldsFromICC parse cms c).2.icc = c.icc) := by
  have hpicc : (poison c).icc = c.icc := rfl
  refine ⟨⟨rfl, rfl⟩, ?_, ?_, ?_⟩
  · intro h
    rw [setFieldsFromICC, hpicc, if_pos h]
  · intro hne hp
    rw [setFieldsFromICC, hpicc, if_neg hne, hp]
  · intro ext hne hp
    rw [setFieldsFromICC, hpicc, if_neg hne, hp]
    simp only [Bool.false_eq_true, if_false]
    rcases hfe : fromExternal ext cms { poison c with icc := ([] : List ℕ) }
        with ⟨s, c2⟩
    cases s
    · intro _
      rfl
    · intro hfst
      simp at hfst

/-- C9, witness: a parse failure leaves exactly the poisoned state, and a
successful non-CMYK import preserves the original ICC bytes; hypotheses
discharged at concrete oracles. -/
theorem setFieldsFromICC_spec_witness :
    setFieldsFromICC (fun _ => none) (fun _ => some [9])
        { defaultColorEncoding with icc := [1] } =
      (some .parseError, poison { defaultColorEncoding with icc := [1] }) ∧
    (setFieldsFromICC
        (fun _ => some (⟨.kRGB, .kD65, ⟨0, 0⟩, .kSRGB, ⟨0, 0⟩, ⟨0, 0⟩,
          ⟨0, 0⟩, .named .kSRGB, .kRelative⟩, false))
        (fun _ => some [9])
        { defaultColorEncoding with icc := [1] }).2.icc = [1] :=
  ⟨(setFieldsFromICC_spec { defaultColorEncoding with icc := [1] }
      (fun _ => none) (fun _ => some [9])).2.2.1 (by simp) rfl,
   (setFieldsFromICC_spec { defaultColorEncoding with icc := [1] }
      (fun _ => some (⟨.kRGB, .kD65, ⟨0, 0⟩, .kSRGB, ⟨0, 0⟩, ⟨0, 0⟩,
        ⟨0, 0⟩, .named .kSRGB, .kRelative⟩, false))
      (fun _ => some [9])).2.2.2
      ⟨.kRGB, .kD65, ⟨0, 0⟩, .kSRGB, ⟨0, 0⟩, ⟨0, 0⟩, ⟨0, 0⟩,
        .named .kSRGB, .kRelative⟩
      (by simp) rfl rfl⟩

/-- C10: the default-constructed `ColorEncoding` (RGB, D65, SRGB
primaries, SRGB transfer, Relative intent) has the frozen description
string `RGB_D65_SRG_Rel_SRG`. -/
theorem default_description :
    description defaultColorEncoding = "RGB_D65_SRG_Rel_SRG" := rfl

end JxlModel
